import Mathlib

/-!
Shallow embedding of the authentication and account-security subsystem of the
warehouse-management backend (src/backend/app): the login flow with lockout
policy (app/api/v1/endpoints/auth.py, `login`), JWT issuing and verification
(app/core/security.py), the TOTP 2FA endpoints (`setup_2fa`,
`verify_2fa_setup`, `disable_2fa`), and the password-strength validator
(app/schemas/user.py). Times are modelled as natural numbers of seconds;
external cryptographic primitives (bcrypt, HMAC, pyotp) are modelled as
injective pure functions.
-/

namespace AuthSpec

/-- Configuration subset relevant to auth (app/core/config.py). -/
structure Settings where
  SECRET_KEY : String
  ACCESS_TOKEN_EXPIRE_MINUTES : Nat
  REFRESH_TOKEN_EXPIRE_DAYS : Nat
deriving DecidableEq

/-- Security-relevant subset of the User model (app/models/user.py).
Timestamps are seconds; nullable columns are `Option`. -/
structure User where
  id : Nat
  username : String
  email : String
  hashed_password : String
  is_active : Bool
  is_2fa_enabled : Bool
  totp_secret : Option String
  backup_codes : Option String
  failed_login_attempts : Nat
  locked_until : Option Nat
  last_login : Option Nat
deriving DecidableEq

/-- Model of passlib bcrypt hashing (app/core/security.py, `get_password_hash`):
an injective one-way transform. -/
def get_password_hash (password : String) : String :=
  ("bcrypt$") ++ password

/-- `verify_password` (app/core/security.py): the verify routine of the
hashing scheme, modelled as recomputing the deterministic hash. -/
def verify_password (plain_password : String) (hashed_password : String) : Bool :=
  hashed_password == get_password_hash plain_password

/-- Model of pyotp code generation: the 6-digit code for a secret at a given
30-second time step, modelled injectively in secret and step. -/
def totp_at (secret : String) (step : Nat) : String :=
  secret ++ ("#") ++ toString step

/-- `verify_totp_token` (app/core/security.py): `pyotp.TOTP(secret).verify(token, valid_window=1)`
accepts the code of the current 30-second step or of the adjacent steps. -/
def verify_totp_token (secret : String) (token : String) (now : Nat) : Bool :=
  (token == totp_at secret (now / 30)) ||
  (token == totp_at secret (now / 30 + 1)) ||
  (token == totp_at secret (now / 30 - 1))

/-- Result of a Python call that may raise an uncaught exception. -/
inductive PyResult (α : Type) where
  | ok : α → PyResult α
  | exn : String → PyResult α
deriving DecidableEq

/-- The call `verify_totp_token(user.totp_secret, code)` where the column is
nullable: `pyotp.TOTP(None)` raises a TypeError when the code is checked,
since the secret cannot be base32-decoded. -/
def verify_totp_token_opt (secret : Option String) (token : String) (now : Nat) : PyResult Bool :=
  match secret with
  | none => PyResult.exn ("TypeError")
  | some s => PyResult.ok (verify_totp_token s token now)

/-- JWT claims written by the token creators (app/core/security.py):
absolute expiry, subject, token kind. -/
structure JwtPayload where
  exp : Nat
  sub : Option String
  type : String
deriving DecidableEq

/-- A JWT value: payload plus the HS256 MAC over it. -/
structure Jwt where
  payload : JwtPayload
  sig : String
deriving DecidableEq

/-- Model of the HS256 MAC over payload and server key. -/
def hs256 (key : String) (p : JwtPayload) : String :=
  key ++ ("|") ++ toString p.exp ++ ("|") ++ p.sub.getD ("") ++ ("|") ++ p.type

/-- `jwt.encode` over the model MAC. -/
def jwt_encode (p : JwtPayload) (key : String) : Jwt :=
  ⟨p, hs256 key p⟩

/-- `jwt.decode`: returns the payload when the signature verifies, else
signals JWTError (`none`). -/
def jwt_decode (t : Jwt) (key : String) : Option JwtPayload :=
  if t.sig == hs256 key t.payload then some t.payload else none

/-- `create_access_token` (app/core/security.py): expiry is now plus the
override when given, else now plus the configured access TTL; kind `access`. -/
def create_access_token (subject : Nat) (expires_delta : Option Nat) (now : Nat) (s : Settings) : Jwt :=
  let expire : Nat :=
    match expires_delta with
    | some d => now + d
    | none => now + s.ACCESS_TOKEN_EXPIRE_MINUTES * 60
  jwt_encode ⟨expire, some (toString subject), ("access")⟩ s.SECRET_KEY

/-- `create_refresh_token` (app/core/security.py): fixed configured TTL in
days; kind `refresh`. -/
def create_refresh_token (subject : Nat) (now : Nat) (s : Settings) : Jwt :=
  jwt_encode ⟨now + s.REFRESH_TOKEN_EXPIRE_DAYS * 86400, some (toString subject), ("refresh")⟩ s.SECRET_KEY

/-- `verify_token` (app/core/security.py): decode (signature check), then
reject when the subject is missing, the kind claim differs from the expected
kind, or the expiry has passed; all failures return `none`. -/
def verify_token (token : Jwt) (token_type : String) (now : Nat) (s : Settings) : Option String :=
  match jwt_decode token s.SECRET_KEY with
  | none => none
  | some payload =>
    match payload.sub with
    | none => none
    | some token_sub =>
      if payload.type ≠ token_type then none
      else if now > payload.exp then none
      else some token_sub

/-- A SecurityEvent row (app/models/audit.py) as written by
`log_security_event` in auth.py. -/
structure SecurityEvent where
  event_type : String
  severity : String
  user_id : Option Nat
deriving DecidableEq

/-- Public profile subset returned by login (app/schemas/user.py, UserProfile). -/
structure UserProfile where
  id : Nat
  email : String
  username : String
  is_2fa_enabled : Bool
deriving DecidableEq

/-- The Token response schema (app/schemas/user.py). -/
structure Token where
  access_token : Jwt
  refresh_token : Jwt
  expires_in : Nat
  user : UserProfile
deriving DecidableEq

/-- Outcome of an HTTP handler: a successful body, an HTTPException with
status and detail, or an uncaught Python exception. -/
inductive HResult (α : Type) where
  | ok : α → HResult α
  | httpError : Nat → String → HResult α
  | pythonError : String → HResult α
deriving DecidableEq

/-- Everything observable from one call of the `login` endpoint: the
response, the committed user row, and the appended log rows. -/
structure LoginOutcome where
  result : HResult Token
  user' : Option User
  security_events : List SecurityEvent
  audit_actions : List String
deriving DecidableEq

/-- The user lookup of `login` (auth.py lines 62-67): first row whose
username or email equals the submitted identifier. -/
def find_user (db : List User) (username : String) : Option User :=
  db.find? (fun u => u.username == username || u.email == username)

/-- `login`, lines 102-112: `user.locked_until and user.locked_until > utcnow()`. -/
def is_locked (user : User) (now : Nat) : Bool :=
  match user.locked_until with
  | none => false
  | some t => now < t

/-- Tail of `login` (auth.py lines 133-172): reset lockout state, stamp
last-login, issue tokens (7-day access expiry override under remember-me),
record the LOGIN audit row, report the configured default TTL. -/
def login_success (s : Settings) (user : User) (remember_me : Bool) (now : Nat) : LoginOutcome :=
  let u3 : User := { user with failed_login_attempts := 0, locked_until := none, last_login := some now }
  let token_expiry : Option Nat := if remember_me then some (7 * 86400) else none
  let access := create_access_token user.id token_expiry now s
  let refresh := create_refresh_token user.id now s
  { result := HResult.ok
      { access_token := access
        refresh_token := refresh
        expires_in := s.ACCESS_TOKEN_EXPIRE_MINUTES * 60
        user := { id := user.id, email := user.email, username := user.username,
                  is_2fa_enabled := user.is_2fa_enabled } }
    user' := some u3
    security_events := []
    audit_actions := [("LOGIN")] }

/-- The `login` endpoint (auth.py lines 44-172), checks in source order:
credential check (with failure counting and locking), active check, lock
check, 2FA check, then success. -/
def login (db : List User) (s : Settings) (username : String) (password : String)
    (remember_me : Bool) (totp_code : Option String) (now : Nat) : LoginOutcome :=
  match find_user db username with
  | none =>
    { result := HResult.httpError 401 ("Incorrect username or password")
      user' := none
      security_events := [⟨("login_failed"), ("medium"), none⟩]
      audit_actions := [] }
  | some user =>
    if !(verify_password password user.hashed_password) then
      let u1 : User := { user with failed_login_attempts := user.failed_login_attempts + 1 }
      let u2 : User :=
        if u1.failed_login_attempts ≥ 5 then { u1 with locked_until := some (now + 30 * 60) } else u1
      { result := HResult.httpError 401 ("Incorrect username or password")
        user' := some u2
        security_events := [⟨("login_failed"), ("medium"), some user.id⟩]
        audit_actions := [] }
    else if !user.is_active then
      { result := HResult.httpError 401 ("Account is inactive")
        user' := some user
        security_events := [⟨("login_blocked"), ("medium"), some user.id⟩]
        audit_actions := [] }
    else if is_locked user now then
      { result := HResult.httpError 401 (("Account is locked until ") ++ toString (user.locked_until.getD 0))
        user' := some user
        security_events := [⟨("login_blocked"), ("medium"), some user.id⟩]
        audit_actions := [] }
    else if user.is_2fa_enabled then
      match totp_code with
      | none =>
        { result := HResult.httpError 400 ("TOTP code required for 2FA")
          user' := some user
          security_events := []
          audit_actions := [] }
      | some code =>
        match verify_totp_token_opt user.totp_secret code now with
        | PyResult.exn e =>
          { result := HResult.pythonError e
            user' := some user
            security_events := []
            audit_actions := [] }
        | PyResult.ok okCode =>
          if !okCode then
            { result := HResult.httpError 401 ("Invalid TOTP code")
              user' := some user
              security_events := [⟨("2fa_failed"), ("high"), some user.id⟩]
              audit_actions := [] }
          else
            login_success s user remember_me now
    else
      login_success s user remember_me now

/-- Outcome of a 2FA management endpoint: the response and the committed
user row. -/
structure OpOutcome where
  result : HResult String
  user' : Option User
deriving DecidableEq

/-- `setup_2fa` (auth.py lines 323-361): verify password, store the freshly
generated secret (passed in here, since it is random), leave the enabled
flag untouched. The success payload carries the secret. -/
def setup_2fa (user : Option User) (password : String) (secret : String) : OpOutcome :=
  match user with
  | none => { result := HResult.httpError 404 ("User not found"), user' := none }
  | some u =>
    if !(verify_password password u.hashed_password) then
      { result := HResult.httpError 400 ("Password is incorrect"), user' := some u }
    else
      { result := HResult.ok secret, user' := some { u with totp_secret := some secret } }

/-- `verify_2fa_setup` (auth.py lines 363-390): requires a pending secret,
verifies the code, then flips the enabled flag. -/
def verify_2fa_setup (user : Option User) (totp_code : String) (now : Nat) : OpOutcome :=
  match user with
  | none => { result := HResult.httpError 400 ("2FA setup not initiated"), user' := none }
  | some u =>
    match u.totp_secret with
    | none => { result := HResult.httpError 400 ("2FA setup not initiated"), user' := some u }
    | some secret =>
      if !(verify_totp_token secret totp_code now) then
        { result := HResult.httpError 400 ("Invalid TOTP code"), user' := some u }
      else
        { result := HResult.ok ("2FA enabled successfully")
          user' := some { u with is_2fa_enabled := true } }

/-- `disable_2fa` (auth.py lines 392-428): verify password, then call
`verify_totp_token(user.totp_secret, code)` on the nullable column with no
pending-secret guard; on success clear flag, secret and backup codes in the
same commit. -/
def disable_2fa (user : Option User) (password : String) (totp_code : String) (now : Nat) : OpOutcome :=
  match user with
  | none => { result := HResult.httpError 404 ("User not found"), user' := none }
  | some u =>
    if !(verify_password password u.hashed_password) then
      { result := HResult.httpError 400 ("Password is incorrect"), user' := some u }
    else
      match verify_totp_token_opt u.totp_secret totp_code now with
      | PyResult.exn e => { result := HResult.pythonError e, user' := some u }
      | PyResult.ok okCode =>
        if !okCode then
          { result := HResult.httpError 400 ("Invalid TOTP code"), user' := some u }
        else
          { result := HResult.ok ("2FA disabled successfully")
            user' := some { u with is_2fa_enabled := false, totp_secret := none, backup_codes := none } }

/-- The `validate_password` validator (app/schemas/user.py, identical in
UserCreate and ChangePassword): a sequence of checks, each raising at the
first violated rule. -/
def validate_password (v : String) : Except String String :=
  if v.length < 8 then Except.error ("Password must be at least 8 characters long")
  else if !(v.data.any Char.isUpper) then Except.error ("Password must contain at least one uppercase letter")
  else if !(v.data.any Char.isLower) then Except.error ("Password must contain at least one lowercase letter")
  else if !(v.data.any Char.isDigit) then Except.error ("Password must contain at least one digit")
  else Except.ok v

/-- Data-model invariant from the spec: 2FA enabled implies a stored secret. -/
def twofa_invariant (u : User) : Prop :=
  u.is_2fa_enabled = true → u.totp_secret ≠ none

instance (u : User) : Decidable (twofa_invariant u) := by
  unfold twofa_invariant; infer_instance

/-- Concrete settings used by witnesses: the configured defaults
(30-minute access TTL, 7-day refresh TTL). -/
def S0 : Settings :=
  { SECRET_KEY := ("k"), ACCESS_TOKEN_EXPIRE_MINUTES := 30, REFRESH_TOKEN_EXPIRE_DAYS := 7 }

/-- Concrete user row used by witnesses and counterexamples. -/
def baseUser : User :=
  { id := 1, username := ("alice"), email := ("alice@example.com")
    hashed_password := get_password_hash ("Secret1A")
    is_active := true, is_2fa_enabled := false, totp_secret := none, backup_codes := none
    failed_login_attempts := 0, locked_until := none, last_login := none }

/-- Helper: outcome of `login` when the user is found but the password is
wrong (auth.py lines 69-88). -/
theorem login_wrong_password_eq (db : List User) (s : Settings) (cred pw : String) (rm : Bool)
    (tc : Option String) (now : Nat) (u : User)
    (hfind : find_user db cred = some u)
    (hpw : verify_password pw u.hashed_password = false) :
    login db s cred pw rm tc now =
      { result := HResult.httpError 401 ("Incorrect username or password")
        user' := some (if u.failed_login_attempts + 1 ≥ 5
            then { u with failed_login_attempts := u.failed_login_attempts + 1,
                          locked_until := some (now + 30 * 60) }
            else { u with failed_login_attempts := u.failed_login_attempts + 1 })
        security_events := [⟨("login_failed"), ("medium"), some u.id⟩]
        audit_actions := [] } := by
  simp only [login, hfind, hpw, Bool.not_false, if_true]

/-- Helper: a successful login response can only arise from a found, active,
unlocked user with a correct password, and the whole outcome is the success
outcome for that user. -/
theorem login_success_state (db : List User) (s : Settings) (cred pw : String) (rm : Bool)
    (tc : Option String) (now : Nat) (tok : Token)
    (h : (login db s cred pw rm tc now).result = HResult.ok tok) :
    ∃ u, find_user db cred = some u ∧
      verify_password pw u.hashed_password = true ∧
      u.is_active = true ∧
      is_locked u now = false ∧
      login db s cred pw rm tc now = login_success s u rm now := by
  unfold login at h
  cases hfind : find_user db cred with
  | none => rw [hfind] at h; simp at h
  | some u =>
    rw [hfind] at h
    cases hpw : verify_password pw u.hashed_password with
    | false => simp [hpw] at h
    | true =>
      cases hact : u.is_active with
      | false => simp [hpw, hact] at h
      | true =>
        cases hlk : is_locked u now with
        | true => simp [hpw, hact, hlk] at h
        | false =>
          cases h2fa : u.is_2fa_enabled with
          | false =>
            exact ⟨u, rfl, hpw, hact, hlk, by simp [login, hfind, hpw, hact, hlk, h2fa]⟩
          | true =>
            cases tc with
            | none => simp [hpw, hact, hlk, h2fa] at h
            | some code =>
              cases hsec : u.totp_secret with
              | none => simp [hpw, hact, hlk, h2fa, verify_totp_token_opt, hsec] at h
              | some sec =>
                cases hv : verify_totp_token sec code now with
                | false => simp [hpw, hact, hlk, h2fa, verify_totp_token_opt, hsec, hv] at h
                | true =>
                  exact ⟨u, rfl, hpw, hact, hlk,
                    by simp [login, hfind, hpw, hact, hlk, h2fa, verify_totp_token_opt, hsec, hv]⟩

/-- Helper: whatever branch `login` takes, the committed user row keeps the
2FA fields of the looked-up row unchanged. -/
theorem login_user_frame (db : List User) (s : Settings) (cred pw : String) (rm : Bool)
    (tc : Option String) (now : Nat) (u u2 : User)
    (hfind : find_user db cred = some u)
    (huser : (login db s cred pw rm tc now).user' = some u2) :
    u2.is_2fa_enabled = u.is_2fa_enabled ∧ u2.totp_secret = u.totp_secret := by
  unfold login login_success at huser
  rw [hfind] at huser
  cases hpw : verify_password pw u.hashed_password with
  | false =>
    simp only [hpw, Bool.not_false, if_true] at huser
    by_cases hc : u.failed_login_attempts + 1 ≥ 5 <;>
      simp only [hc, if_true, if_false, ge_iff_le, Option.some.injEq] at huser <;>
        (try subst huser) <;> simp_all
  | true =>
    cases hact : u.is_active with
    | false => simp [hpw, hact] at huser; subst huser; simp_all
    | true =>
      cases hlk : is_locked u now with
      | true => simp [hpw, hact, hlk] at huser; subst huser; simp_all
      | false =>
        cases h2fa : u.is_2fa_enabled with
        | false =>
          simp [hpw, hact, hlk, h2fa] at huser
          subst huser; simp_all
        | true =>
          cases tc with
          | none =>
            simp [hpw, hact, hlk, h2fa] at huser
            subst huser; simp_all
          | some code =>
            cases hsec : u.totp_secret with
            | none =>
              simp [hpw, hact, hlk, h2fa, verify_totp_token_opt, hsec] at huser
              subst huser; simp_all
            | some sec =>
              cases hv : verify_totp_token sec code now with
              | false =>
                simp [hpw, hact, hlk, h2fa, verify_totp_token_opt, hsec, hv] at huser
                subst huser; simp_all
              | true =>
                simp [hpw, hact, hlk, h2fa, verify_totp_token_opt, hsec, hv] at huser
                subst huser; simp_all

/-- C3: a token issued with kind access is rejected by verification as
refresh and vice versa; and the invalid signal is one and the same value
(`none`) for kind mismatch, bad signature, and passed expiry. -/
theorem C3_token_kind_rejection (s : Settings) :
    (∀ sub delta tnow vnow, verify_token (create_access_token sub delta tnow s) ("refresh") vnow s = none) ∧
    (∀ sub tnow vnow, verify_token (create_refresh_token sub tnow s) ("access") vnow s = none) ∧
    (∀ t kind vnow, jwt_decode t s.SECRET_KEY = none → verify_token t kind vnow s = none) ∧
    (∀ p kind vnow, vnow > p.exp → verify_token (jwt_encode p s.SECRET_KEY) kind vnow s = none) := by
  refine ⟨?_, ?_, ?_, ?_⟩
  · intro sub delta tnow vnow
    simp [verify_token, create_access_token, jwt_encode, jwt_decode]
  · intro sub tnow vnow
    simp [verify_token, create_refresh_token, jwt_encode, jwt_decode]
  · intro t kind vnow hdec
    simp [verify_token, hdec]
  · intro p kind vnow hexp
    rcases eq_or_ne p.type kind with hty | hty <;>
      cases hsub : p.sub <;>
        simp [verify_token, jwt_encode, jwt_decode, hsub, hty, hexp]

/-- C3 witness: the conjuncts of C3 at concrete inputs. -/
theorem C3_token_kind_rejection_witness :
    verify_token (create_access_token 1 none 0 S0) ("refresh") 0 S0 = none ∧
    verify_token (create_refresh_token 1 0 S0) ("access") 0 S0 = none ∧
    verify_token ⟨⟨100, some ("1"), ("access")⟩, ("bad")⟩ ("access") 0 S0 = none ∧
    verify_token (jwt_encode ⟨100, some ("1"), ("access")⟩ S0.SECRET_KEY) ("access") 101 S0 = none := by
  refine ⟨(C3_token_kind_rejection S0).1 1 none 0 0,
          (C3_token_kind_rejection S0).2.1 1 0 0,
          (C3_token_kind_rejection S0).2.2.1 ⟨⟨100, some ("1"), ("access")⟩, ("bad")⟩ ("access") 0 (by decide),
          (C3_token_kind_rejection S0).2.2.2 ⟨100, some ("1"), ("access")⟩ ("access") 101 (by decide)⟩

/-- C4: a token verified strictly after its embedded expiry instant is
rejected, even with a valid signature and a matching kind claim. -/
theorem C4_expired_token_rejected (s : Settings) (p : JwtPayload) (kind : String) (vnow : Nat)
    (hkind : p.type = kind) (hexp : p.exp < vnow) :
    verify_token (jwt_encode p s.SECRET_KEY) kind vnow s = none := by
  cases hsub : p.sub <;>
    simp [verify_token, jwt_encode, jwt_decode, hsub, hkind, hexp]

/-- C4 witness: an expired access token with valid signature and matching
kind is rejected at a concrete input. -/
theorem C4_expired_token_rejected_witness :
    verify_token (jwt_encode ⟨50, some ("1"), ("access")⟩ S0.SECRET_KEY) ("access") 51 S0 = none :=
  C4_expired_token_rejected S0 ⟨50, some ("1"), ("access")⟩ ("access") 51 (by decide) (by decide)

/-- Concrete user rows used by witnesses and counterexamples. -/
def lockedUser : User :=
  { baseUser with failed_login_attempts := 5, locked_until := some 10000 }

def twofaUser : User :=
  { baseUser with is_2fa_enabled := true, totp_secret := some ("SEC") }

def inactive2faUser : User :=
  { baseUser with is_active := false, is_2fa_enabled := true, totp_secret := some ("SEC") }

/-- C7 counterexample: the password abcdefgh violates both the uppercase
rule and the digit rule, yet the validator reports only the uppercase rule;
its output even equals the output for abcdefg1, whose violation set is
different, so the result cannot report every violated rule individually. -/
theorem C7_counterexample :
    validate_password ("abcdefgh") =
      Except.error ("Password must contain at least one uppercase letter") ∧
    ("abcdefgh").data.any Char.isDigit = false ∧
    validate_password ("abcdefgh") = validate_password ("abcdefg1") ∧
    ("abcdefg1").data.any Char.isDigit = true := by
  exact ⟨rfl, rfl, rfl, rfl⟩

/-- C7 amended: the validator accepts exactly the passwords of length at
least 8 containing an uppercase letter, a lowercase letter and a digit; on
rejection it reports only the first violated rule in the order length,
uppercase, lowercase, digit. -/
theorem C7_password_policy (v : String) :
    (validate_password v = Except.ok v ↔
      (8 ≤ v.length ∧ v.data.any Char.isUpper = true ∧ v.data.any Char.isLower = true ∧
        v.data.any Char.isDigit = true)) ∧
    (v.length < 8 →
      validate_password v = Except.error ("Password must be at least 8 characters long")) ∧
    (8 ≤ v.length → v.data.any Char.isUpper = false →
      validate_password v = Except.error ("Password must contain at least one uppercase letter")) ∧
    (8 ≤ v.length → v.data.any Char.isUpper = true → v.data.any Char.isLower = false →
      validate_password v = Except.error ("Password must contain at least one lowercase letter")) ∧
    (8 ≤ v.length → v.data.any Char.isUpper = true → v.data.any Char.isLower = true →
      v.data.any Char.isDigit = false →
      validate_password v = Except.error ("Password must contain at least one digit")) := by
  unfold validate_password
  by_cases h1 : v.length < 8 <;>
    cases h2 : v.data.any Char.isUpper <;>
      cases h3 : v.data.any Char.isLower <;>
        cases h4 : v.data.any Char.isDigit <;>
          simp_all <;> (rw [if_neg (by omega)]; simp)

/-- C7 witness: the amended statement evaluated on concrete passwords. -/
theorem C7_password_policy_witness :
    validate_password ("Secret1A") = Except.ok ("Secret1A") ∧
    validate_password ("short") = Except.error ("Password must be at least 8 characters long") ∧
    validate_password ("secret1secret") =
      Except.error ("Password must contain at least one uppercase letter") ∧
    validate_password ("SECRET1SECRET") =
      Except.error ("Password must contain at least one lowercase letter") ∧
    validate_password ("SecretSecret") =
      Except.error ("Password must contain at least one digit") := by
  refine ⟨(C7_password_policy ("Secret1A")).1.mpr (by decide),
          (C7_password_policy ("short")).2.1 (by decide),
          (C7_password_policy ("secret1secret")).2.2.1 (by decide) (by decide),
          (C7_password_policy ("SECRET1SECRET")).2.2.2.1 (by decide) (by decide) (by decide),
          (C7_password_policy ("SecretSecret")).2.2.2.2 (by decide) (by decide) (by decide) (by decide)⟩

/-- C9: a disable-2FA call by a user whose stored TOTP secret is null
reaches the TOTP check with a null secret and ends in an uncaught TypeError
after the password check passes, while the corresponding guard in
verify-2FA-setup rejects the same user cleanly. -/
theorem C9_disable_2fa_null_secret (u : User) (pw tc : String) (now : Nat)
    (hsec : u.totp_secret = none)
    (hpw : verify_password pw u.hashed_password = true) :
    (disable_2fa (some u) pw tc now).result = HResult.pythonError ("TypeError") ∧
    (verify_2fa_setup (some u) tc now).result = HResult.httpError 400 ("2FA setup not initiated") := by
  constructor
  · simp [disable_2fa, verify_totp_token_opt, hsec, hpw]
  · simp [verify_2fa_setup, hsec]

/-- C9 witness: the concrete base user (2FA never set up) with the correct
password. -/
theorem C9_disable_2fa_null_secret_witness :
    (disable_2fa (some baseUser) ("Secret1A") ("123456") 0).result = HResult.pythonError ("TypeError") ∧
    (verify_2fa_setup (some baseUser) ("123456") 0).result =
      HResult.httpError 400 ("2FA setup not initiated") :=
  C9_disable_2fa_null_secret baseUser ("Secret1A") ("123456") 0 (by decide) (by decide)

/-- C10: every successful remember-me login issues an access token expiring
7 days after issuance while the response still reports the configured
default TTL in seconds, so the reported lifetime differs from the actual
one whenever the configured default is not itself 7 days. -/
theorem C10_remember_me_expires_in_mismatch (db : List User) (s : Settings) (cred pw : String)
    (tc : Option String) (now : Nat) (tok : Token)
    (hok : (login db s cred pw true tc now).result = HResult.ok tok) :
    tok.access_token.payload.exp = now + 7 * 86400 ∧
    tok.expires_in = s.ACCESS_TOKEN_EXPIRE_MINUTES * 60 ∧
    (s.ACCESS_TOKEN_EXPIRE_MINUTES * 60 ≠ 7 * 86400 →
      tok.expires_in ≠ tok.access_token.payload.exp - now) := by
  obtain ⟨u, _, _, _, _, heq⟩ := login_success_state db s cred pw true tc now tok hok
  rw [heq] at hok
  obtain rfl := (HResult.ok.inj hok).symm
  refine ⟨rfl, rfl, ?_⟩
  intro hne
  show s.ACCESS_TOKEN_EXPIRE_MINUTES * 60 ≠ now + 7 * 86400 - now
  omega

/-- C10 witness: under the default configuration (30-minute access TTL) a
concrete successful remember-me login reports 1800 seconds while the token
actually issued lives 7 days. -/
theorem C10_remember_me_expires_in_mismatch_witness :
    ∃ tok, (login [baseUser] S0 ("alice") ("Secret1A") true none 0).result = HResult.ok tok ∧
      tok.access_token.payload.exp = 0 + 7 * 86400 ∧
      tok.expires_in = S0.ACCESS_TOKEN_EXPIRE_MINUTES * 60 ∧
      (S0.ACCESS_TOKEN_EXPIRE_MINUTES * 60 ≠ 7 * 86400 →
        tok.expires_in ≠ tok.access_token.payload.exp - 0) :=
  ⟨_, rfl, C10_remember_me_expires_in_mismatch [baseUser] S0 ("alice") ("Secret1A") none 0 _ rfl⟩

/-- C1 counterexample: on a locked (and active) account, a wrong-password
attempt is answered with the generic credentials error, not with the
account-locked error, so not every login attempt during the lock window is
rejected with the account-locked error. -/
theorem C1_counterexample :
    is_locked lockedUser 100 = true ∧
    (login [lockedUser] S0 ("alice") ("wrongpass") false none 100).result =
      HResult.httpError 401 ("Incorrect username or password") ∧
    (login [lockedUser] S0 ("alice") ("wrongpass") false none 100).result ≠
      HResult.httpError 401 (("Account is locked until ") ++ toString 10000) := by
  refine ⟨rfl, rfl, ?_⟩
  intro h
  exact absurd (HResult.httpError.inj h).2 (by decide)

/-- C1 amended: every failed password attempt on an existing account
increments the failure counter, and from the fifth consecutive failure on
the lock expiry is set 30 minutes after the attempt; while the lock expiry
is in the future a login with the correct password on an active account is
rejected with the account-locked error carrying the expiry time, a
wrong-password attempt is rejected with the generic credentials error, and
in either case no tokens are issued. -/
theorem C1_lockout (db : List User) (s : Settings) (cred pw : String)
    (rm : Bool) (tc : Option String) (now : Nat) (u : User)
    (hfind : find_user db cred = some u) :
    (verify_password pw u.hashed_password = false →
      ∃ u2, (login db s cred pw rm tc now).user' = some u2 ∧
        u2.failed_login_attempts = u.failed_login_attempts + 1 ∧
        (4 ≤ u.failed_login_attempts → u2.locked_until = some (now + 30 * 60)) ∧
        (login db s cred pw rm tc now).result =
          HResult.httpError 401 ("Incorrect username or password")) ∧
    (∀ t, verify_password pw u.hashed_password = true → u.is_active = true →
      u.locked_until = some t → now < t →
      (login db s cred pw rm tc now).result =
        HResult.httpError 401 (("Account is locked until ") ++ toString t)) ∧
    (is_locked u now = true → ∀ tok, (login db s cred pw rm tc now).result ≠ HResult.ok tok) := by
  refine ⟨?_, ?_, ?_⟩
  · intro hpw
    rw [login_wrong_password_eq db s cred pw rm tc now u hfind hpw]
    refine ⟨_, rfl, ?_, ?_, rfl⟩
    · by_cases hc : u.failed_login_attempts + 1 ≥ 5 <;> simp [hc]
    · intro h4
      have hc : u.failed_login_attempts + 1 ≥ 5 := by omega
      simp [hc]
  · intro t hpw hact hlkeq hnow
    have hlk : is_locked u now = true := by simp [is_locked, hlkeq, hnow]
    simp [login, hfind, hpw, hact, hlk, hlkeq]
  · intro hlk tok hok
    obtain ⟨u', hfind', _, _, hlk', _⟩ := login_success_state db s cred pw rm tc now tok hok
    rw [hfind] at hfind'
    obtain rfl := Option.some.inj hfind'
    rw [hlk] at hlk'
    exact Bool.noConfusion hlk'

/-- C1 witness: concrete locked account; the correct password is rejected
with the locked error, and a wrong password increments the counter. -/
theorem C1_lockout_witness :
    (login [lockedUser] S0 ("alice") ("Secret1A") false none 100).result =
      HResult.httpError 401 (("Account is locked until ") ++ toString 10000) ∧
    (∃ u2, (login [lockedUser] S0 ("alice") ("wrongpass") false none 100).user' = some u2 ∧
      u2.failed_login_attempts = lockedUser.failed_login_attempts + 1 ∧
      (4 ≤ lockedUser.failed_login_attempts → u2.locked_until = some (100 + 30 * 60)) ∧
      (login [lockedUser] S0 ("alice") ("wrongpass") false none 100).result =
        HResult.httpError 401 ("Incorrect username or password")) :=
  ⟨(C1_lockout [lockedUser] S0 ("alice") ("Secret1A") false none 100 lockedUser (by decide)).2.1
      10000 (by decide) (by decide) (by decide) (by decide),
   (C1_lockout [lockedUser] S0 ("alice") ("wrongpass") false none 100 lockedUser (by decide)).1
      (by decide)⟩

/-- C2: a login naming a nonexistent account and a login naming an existing
account with a wrong password (whatever its active, lock or 2FA state)
produce one and the same generic authentication-failure response. -/
theorem C2_uniform_auth_failure (db : List User) (s : Settings)
    (cred1 pw1 : String) (rm1 : Bool) (tc1 : Option String) (now1 : Nat)
    (cred2 pw2 : String) (rm2 : Bool) (tc2 : Option String) (now2 : Nat) (u : User)
    (h1 : find_user db cred1 = none)
    (h2 : find_user db cred2 = some u)
    (hpw : verify_password pw2 u.hashed_password = false) :
    (login db s cred1 pw1 rm1 tc1 now1).result =
      HResult.httpError 401 ("Incorrect username or password") ∧
    (login db s cred2 pw2 rm2 tc2 now2).result = (login db s cred1 pw1 rm1 tc1 now1).result := by
  constructor
  · simp [login, h1]
  · rw [login_wrong_password_eq db s cred2 pw2 rm2 tc2 now2 u h2 hpw]
    simp [login, h1]

/-- C2 witness: the same database answers a nonexistent username and a
wrong password on an existing inactive account identically. -/
theorem C2_uniform_auth_failure_witness :
    (login [inactive2faUser] S0 ("bob") ("whatever") false none 0).result =
      HResult.httpError 401 ("Incorrect username or password") ∧
    (login [inactive2faUser] S0 ("alice") ("wrongpass") false none 0).result =
      (login [inactive2faUser] S0 ("bob") ("whatever") false none 0).result :=
  C2_uniform_auth_failure [inactive2faUser] S0 ("bob") ("whatever") false none 0
    ("alice") ("wrongpass") false none 0 inactive2faUser (by decide) (by decide) (by decide)

/-- C6 counterexample: an inactive account with 2FA enabled and a correct
password but no TOTP code is rejected with the inactive-account error, not
the validation error, and a SecurityEvent is recorded — so the claim does
not hold for every login with 2FA enabled and a correct password. -/
theorem C6_counterexample :
    inactive2faUser.is_2fa_enabled = true ∧
    verify_password ("Secret1A") inactive2faUser.hashed_password = true ∧
    (login [inactive2faUser] S0 ("alice") ("Secret1A") false none 0).result =
      HResult.httpError 401 ("Account is inactive") ∧
    (login [inactive2faUser] S0 ("alice") ("Secret1A") false none 0).security_events =
      [⟨("login_blocked"), ("medium"), some 1⟩] := by
  exact ⟨rfl, rfl, rfl, rfl⟩

/-- C6 amended: on an active, unlocked account with 2FA enabled where the
password verifies, a missing TOTP code yields a validation error with no
SecurityEvent recorded, and a wrong TOTP code yields an authentication
error with exactly one high-severity 2fa-failed SecurityEvent. -/
theorem C6_twofa_code_checks (db : List User) (s : Settings) (cred pw : String) (rm : Bool)
    (now : Nat) (u : User)
    (hfind : find_user db cred = some u)
    (hpw : verify_password pw u.hashed_password = true)
    (hact : u.is_active = true)
    (hlk : is_locked u now = false)
    (h2fa : u.is_2fa_enabled = true) :
    ((login db s cred pw rm none now).result = HResult.httpError 400 ("TOTP code required for 2FA") ∧
      (login db s cred pw rm none now).security_events = []) ∧
    (∀ code sec, u.totp_secret = some sec → verify_totp_token sec code now = false →
      (login db s cred pw rm (some code) now).result = HResult.httpError 401 ("Invalid TOTP code") ∧
      (login db s cred pw rm (some code) now).security_events =
        [⟨("2fa_failed"), ("high"), some u.id⟩]) := by
  constructor
  · constructor <;> simp [login, hfind, hpw, hact, hlk, h2fa]
  · intro code sec hsec hv
    constructor <;>
      simp [login, hfind, hpw, hact, hlk, h2fa, verify_totp_token_opt, hsec, hv]

/-- C6 witness: concrete active 2FA account; missing code gives the
validation error and no event, a wrong code gives the auth error and one
2fa-failed event. -/
theorem C6_twofa_code_checks_witness :
    ((login [twofaUser] S0 ("alice") ("Secret1A") false none 0).result =
        HResult.httpError 400 ("TOTP code required for 2FA") ∧
      (login [twofaUser] S0 ("alice") ("Secret1A") false none 0).security_events = []) ∧
    ((login [twofaUser] S0 ("alice") ("Secret1A") false (some ("SEC#7")) 0).result =
        HResult.httpError 401 ("Invalid TOTP code") ∧
      (login [twofaUser] S0 ("alice") ("Secret1A") false (some ("SEC#7")) 0).security_events =
        [⟨("2fa_failed"), ("high"), some 1⟩]) :=
  ⟨(C6_twofa_code_checks [twofaUser] S0 ("alice") ("Secret1A") false 0 twofaUser
      (by decide) (by decide) (by decide) (by decide) (by decide)).1,
   (C6_twofa_code_checks [twofaUser] S0 ("alice") ("Secret1A") false 0 twofaUser
      (by decide) (by decide) (by decide) (by decide) (by decide)).2
      ("SEC#7") ("SEC") (by decide) (by decide)⟩

/-- C8: once the failure counter is at least 4, each further wrong-password
attempt sets the lock expiry to 30 minutes after that attempt (renewing the
lock); the counter is reset only by a successful login — it never decreases
on a rejected attempt — so after a lock expires a single wrong-password
attempt immediately re-locks the account. -/
theorem C8_relock_after_expiry :
    (∀ db s cred pw rm tc now u, find_user db cred = some u →
      verify_password pw u.hashed_password = false →
      4 ≤ u.failed_login_attempts →
      ∃ u2, (login db s cred pw rm tc now).user' = some u2 ∧
        u2.failed_login_attempts = u.failed_login_attempts + 1 ∧
        u2.locked_until = some (now + 30 * 60)) ∧
    (∀ db s cred pw rm tc now tok, (login db s cred pw rm tc now).result = HResult.ok tok →
      ∃ u2, (login db s cred pw rm tc now).user' = some u2 ∧
        u2.failed_login_attempts = 0 ∧ u2.locked_until = none) ∧
    (∀ db s cred pw rm tc now u u2, find_user db cred = some u →
      (login db s cred pw rm tc now).user' = some u2 →
      (∀ tok, (login db s cred pw rm tc now).result ≠ HResult.ok tok) →
      u.failed_login_attempts ≤ u2.failed_login_attempts) := by
  refine ⟨?_, ?_, ?_⟩
  · intro db s cred pw rm tc now u hfind hpw h4
    rw [login_wrong_password_eq db s cred pw rm tc now u hfind hpw]
    have hc : u.failed_login_attempts + 1 ≥ 5 := by omega
    exact ⟨_, rfl, by simp [hc], by simp [hc]⟩
  · intro db s cred pw rm tc now tok hok
    obtain ⟨u, _, _, _, _, heq⟩ := login_success_state db s cred pw rm tc now tok hok
    rw [heq]
    exact ⟨_, rfl, rfl, rfl⟩
  · intro db s cred pw rm tc now u u2 hfind huser hnotok
    cases hpw : verify_password pw u.hashed_password with
    | false =>
      rw [login_wrong_password_eq db s cred pw rm tc now u hfind hpw] at huser
      by_cases hc : u.failed_login_attempts + 1 ≥ 5 <;>
        simp only [hc, if_true, if_false, ge_iff_le, Option.some.injEq] at huser <;>
          subst huser <;> exact Nat.le_succ _
    | true =>
      unfold login login_success at huser
      rw [hfind] at huser
      cases hact : u.is_active with
      | false => simp [hpw, hact] at huser; subst huser; exact le_refl _
      | true =>
        cases hlk : is_locked u now with
        | true => simp [hpw, hact, hlk] at huser; subst huser; exact le_refl _
        | false =>
          cases h2fa : u.is_2fa_enabled with
          | false =>
            have heq : login db s cred pw rm tc now = login_success s u rm now := by
              simp [login, hfind, hpw, hact, hlk, h2fa]
            exact absurd (heq ▸ rfl) (hnotok
              { access_token := create_access_token u.id (if rm then some (7 * 86400) else none) now s
                refresh_token := create_refresh_token u.id now s
                expires_in := s.ACCESS_TOKEN_EXPIRE_MINUTES * 60
                user := { id := u.id, email := u.email, username := u.username,
                          is_2fa_enabled := u.is_2fa_enabled } })
          | true =>
            cases tc with
            | none => simp [hpw, hact, hlk, h2fa] at huser; subst huser; exact le_refl _
            | some code =>
              cases hsec : u.totp_secret with
              | none =>
                simp [hpw, hact, hlk, h2fa, verify_totp_token_opt, hsec] at huser
                subst huser; exact le_refl _
              | some sec =>
                cases hv : verify_totp_token sec code now with
                | false =>
                  simp [hpw, hact, hlk, h2fa, verify_totp_token_opt, hsec, hv] at huser
                  subst huser; exact le_refl _
                | true =>
                  have heq : login db s cred pw rm (some code) now = login_success s u rm now := by
                    simp [login, hfind, hpw, hact, hlk, h2fa, verify_totp_token_opt, hsec, hv]
                  exact absurd (heq ▸ rfl) (hnotok
                    { access_token := create_access_token u.id (if rm then some (7 * 86400) else none) now s
                      refresh_token := create_refresh_token u.id now s
                      expires_in := s.ACCESS_TOKEN_EXPIRE_MINUTES * 60
                      user := { id := u.id, email := u.email, username := u.username,
                                is_2fa_enabled := u.is_2fa_enabled } })

/-- C8 witness: the lock of the concrete user expired at 10000; at 20000
one wrong password re-locks 30 minutes after the attempt. -/
theorem C8_relock_after_expiry_witness :
    is_locked lockedUser 20000 = false ∧
    ∃ u2, (login [lockedUser] S0 ("alice") ("wrongpass") false none 20000).user' = some u2 ∧
      u2.failed_login_attempts = lockedUser.failed_login_attempts + 1 ∧
      u2.locked_until = some (20000 + 30 * 60) :=
  ⟨by decide,
   C8_relock_after_expiry.1 [lockedUser] S0 ("alice") ("wrongpass") false none 20000
     lockedUser (by decide) (by decide) (by decide)⟩

/-- C5: a successful disable-2FA call leaves the committed row with the
enabled flag false, a null TOTP secret and cleared backup codes (the model
commits one row, mirroring the single commit in the handler), and the
invariant that an enabled 2FA flag implies a stored secret is preserved by
setup, verify-setup, disable and login. -/
theorem C5_disable_atomic_invariant :
    (∀ u pw tc now res u2,
      (disable_2fa (some u) pw tc now).result = HResult.ok res →
      (disable_2fa (some u) pw tc now).user' = some u2 →
      u2.is_2fa_enabled = false ∧ u2.totp_secret = none ∧ u2.backup_codes = none) ∧
    (∀ u pw secret u2, twofa_invariant u →
      (setup_2fa (some u) pw secret).user' = some u2 → twofa_invariant u2) ∧
    (∀ u tc now u2, twofa_invariant u →
      (verify_2fa_setup (some u) tc now).user' = some u2 → twofa_invariant u2) ∧
    (∀ u pw tc now u2, twofa_invariant u →
      (disable_2fa (some u) pw tc now).user' = some u2 → twofa_invariant u2) ∧
    (∀ db s cred pw rm tc now u2, (∀ u ∈ db, twofa_invariant u) →
      (login db s cred pw rm tc now).user' = some u2 → twofa_invariant u2) := by
  refine ⟨?_, ?_, ?_, ?_, ?_⟩
  · intro u pw tc now res u2 hres huser
    unfold disable_2fa at hres huser
    cases hpw : verify_password pw u.hashed_password with
    | false => simp [hpw] at hres
    | true =>
      cases hsec : u.totp_secret with
      | none => simp [hpw, hsec, verify_totp_token_opt] at hres
      | some sec =>
        cases hv : verify_totp_token sec tc now with
        | false => simp [hpw, hsec, verify_totp_token_opt, hv] at hres
        | true =>
          simp [hpw, hsec, verify_totp_token_opt, hv] at huser
          subst huser
          exact ⟨rfl, rfl, rfl⟩
  · intro u pw secret u2 hinv huser
    unfold setup_2fa at huser
    cases hpw : verify_password pw u.hashed_password with
    | false => simp [hpw] at huser; subst huser; exact hinv
    | true =>
      simp [hpw] at huser
      subst huser
      intro _
      simp
  · intro u tc now u2 hinv huser
    unfold verify_2fa_setup at huser
    cases hsec : u.totp_secret with
    | none => simp [hsec] at huser; subst huser; exact hinv
    | some sec =>
      cases hv : verify_totp_token sec tc now with
      | false => simp [hsec, hv] at huser; subst huser; exact hinv
      | true =>
        simp [hsec, hv] at huser
        subst huser
        intro _
        simp [hsec]
  · intro u pw tc now u2 hinv huser
    unfold disable_2fa at huser
    cases hpw : verify_password pw u.hashed_password with
    | false => simp [hpw] at huser; subst huser; exact hinv
    | true =>
      cases hsec : u.totp_secret with
      | none => simp [hpw, hsec, verify_totp_token_opt] at huser; subst huser; exact hinv
      | some sec =>
        cases hv : verify_totp_token sec tc now with
        | false => simp [hpw, hsec, verify_totp_token_opt, hv] at huser; subst huser; exact hinv
        | true =>
          simp [hpw, hsec, verify_totp_token_opt, hv] at huser
          subst huser
          intro h
          simp at h
  · intro db s cred pw rm tc now u2 hdb huser
    cases hfind : find_user db cred with
    | none =>
      unfold login at huser
      rw [hfind] at huser
      simp at huser
    | some u =>
      have hmem : u ∈ db := List.mem_of_find?_eq_some hfind
      have hinv := hdb u hmem
      obtain ⟨h1, h2⟩ := login_user_frame db s cred pw rm tc now u u2 hfind huser
      intro henabled
      rw [h2]
      rw [h1] at henabled
      exact hinv henabled

/-- C5 witness: disabling 2FA on the concrete 2FA-enabled user with the
correct password and current TOTP code clears all three fields, and
verify-setup preserves the invariant on the same user. -/
theorem C5_disable_atomic_invariant_witness :
    (disable_2fa (some twofaUser) ("Secret1A") ("SEC#0") 0).result =
      HResult.ok ("2FA disabled successfully") ∧
    (∃ u2, (disable_2fa (some twofaUser) ("Secret1A") ("SEC#0") 0).user' = some u2 ∧
      u2.is_2fa_enabled = false ∧ u2.totp_secret = none ∧ u2.backup_codes = none) ∧
    (∀ u2, (verify_2fa_setup (some twofaUser) ("SEC#0") 0).user' = some u2 → twofa_invariant u2) := by
  refine ⟨rfl, ⟨_, rfl, C5_disable_atomic_invariant.1 twofaUser ("Secret1A") ("SEC#0") 0
      ("2FA disabled successfully") _ rfl rfl⟩, ?_⟩
  intro u2 h
  exact C5_disable_atomic_invariant.2.2.1 twofaUser ("SEC#0") 0 u2 (by decide) h

end AuthSpec
